import Mathlib

/-
  Verification development for red-connector-xnat (src/red_connector_xnat/http.py).

  The module is shallowly embedded: each operation is a pure Lean function from
  the access description, the internal descriptor and a model of the remote
  server to the ordered list of side-effect events (network calls and local
  file opens) together with the final outcome.  Network responses are modelled
  by the Server structure: the listing bodies the code inspects (container IDs,
  resource labels, file names) and the HTTP status of the k-th call issued in
  the operation.
-/

namespace RedXnat

/-- The auth sub-object of an access description (username/password). -/
structure Auth where
  username : String
  password : String
deriving DecidableEq

/-- Model of requests.auth.HTTPBasicAuth, the credential object built by
the code from the auth sub-object. -/
structure HTTPBasicAuth where
  username : String
  password : String
deriving DecidableEq

/-- Translation of the helper at src/red_connector_xnat/http.py lines 95-104:
returns none when the access description has no auth entry, otherwise the
basic-auth credential built from username and password. -/
def auth_method_obj : Option Auth → Option HTTPBasicAuth
  | none => none
  | some a => some { username := a.username, password := a.password }

/-- HTTP method of a network call. -/
inductive Method where
  | get
  | put
  | post
  | delete
deriving DecidableEq

/-- One network call as issued through the requests library: method, full URL,
the basic-auth credential passed with the request (if any), whether the
session cookies from the first response were attached, the TLS verification
flag, whether the response is streamed, and the local path streamed as the
request body (for the file-upload PUT). -/
structure Call where
  method : Method
  url : String
  auth : Option HTTPBasicAuth
  cookies : Bool
  verify : Bool
  stream : Bool
  bodyFromLocalPath : Option String
deriving DecidableEq

/-- A side effect performed by an operation, in order: a network call, or
opening a local file for writing (receive) or reading (send). -/
inductive Event where
  | net (c : Call)
  | openLocalWrite (path : String)
  | openLocalRead (path : String)
deriving DecidableEq

/-- Final outcome of an operation: normal return, an HttpError raised by
raise_for_status carrying the response status, or the conflict exception
raised when the container exists and upsert is not set. -/
inductive Outcome where
  | ok
  | httpError (status : Nat)
  | conflictError (msg : String)
deriving DecidableEq

/-- Result of running an operation: the ordered event list and the outcome. -/
structure OpResult where
  events : List Event
  outcome : Outcome
deriving DecidableEq

/-- The network calls of an event list, in order. -/
def netCalls (evs : List Event) : List Call :=
  evs.filterMap (fun e =>
    match e with
    | Event.net c => some c
    | _ => none)

@[simp]
theorem netCalls_nil : netCalls [] = [] := rfl

@[simp]
theorem netCalls_cons_net (c : Call) (l : List Event) :
    netCalls (Event.net c :: l) = c :: netCalls l := rfl

@[simp]
theorem netCalls_cons_read (p : String) (l : List Event) :
    netCalls (Event.openLocalRead p :: l) = netCalls l := rfl

@[simp]
theorem netCalls_cons_write (p : String) (l : List Event) :
    netCalls (Event.openLocalWrite p :: l) = netCalls l := rfl

/-- Status of the k-th call given the status list; 200 (success) when the
list does not specify one. -/
def statusList : List Nat → Nat → Nat
  | [], _ => 200
  | s :: _, 0 => s
  | _ :: rest, n + 1 => statusList rest n

/-- Model of the remote XNAT server as seen by one operation: the ID fields of
the container listing, the label fields of the resource listing, the Name
fields of the file listing, and the HTTP status of each call in issue order. -/
structure Server where
  containers : List String
  resources : List String
  files : List String
  statuses : List Nat

/-- Status of the k-th network call issued in the operation. -/
def Server.statusAt (srv : Server) (k : Nat) : Nat :=
  statusList srv.statuses k

/-- requests Response.raise_for_status raises HTTPError exactly for
status codes in [400, 600). -/
def raisesForStatus (s : Nat) : Prop := 400 ≤ s ∧ s < 600

instance (s : Nat) : Decidable (raisesForStatus s) :=
  inferInstanceAs (Decidable (400 ≤ s ∧ s < 600))

/-- Python str.rstrip applied with the slash character: removes every
trailing slash. -/
def rstripSlash (s : String) : String :=
  String.mk ((s.toList.reverse.dropWhile (fun c => c == '/')).reverse)

/-- A string of n slashes. -/
def slashes (n : Nat) : String :=
  String.mk (List.replicate n '/')

/-- Python truthiness of an optional string: falsy when absent or empty. -/
def pyTruthyStr : Option String → Bool
  | none => false
  | some s => !s.isEmpty

/-- Python str.format of an optional value: None prints as the text None. -/
def pyStrOfOpt : Option String → String
  | none => "None"
  | some s => s

/-- The local-path descriptor passed as the internal argument. -/
structure Internal where
  path : String
deriving DecidableEq

/-- Access description for receive, as validated by the receive schema:
containerType and container are optional (the container-less shape omits
them), auth is modelled as optional to mirror the helper at lines 95-97. -/
structure ReceiveAccess where
  baseUrl : String
  project : String
  subject : String
  session : String
  containerType : Option String
  container : Option String
  resource : String
  file : String
  auth : Option Auth
  disableSSLVerification : Option Bool
deriving DecidableEq

/-- Access description for send, as validated by the send schema: resource
and upsert are optional, everything else the schema requires is present. -/
structure SendAccess where
  baseUrl : String
  project : String
  subject : String
  session : String
  containerType : String
  container : String
  resource : Option String
  xsiType : String
  file : String
  upsert : Option Bool
  auth : Option Auth
  disableSSLVerification : Option Bool
deriving DecidableEq

/-- TLS verification flag for receive (http.py lines 112-114). -/
def receiveVerify (a : ReceiveAccess) : Bool :=
  if a.disableSSLVerification = some true then false else true

/-- TLS verification flag for send (http.py lines 165-167). -/
def sendVerify (a : SendAccess) : Bool :=
  if a.disableSSLVerification = some true then false else true

/-- The URL built by receive (http.py lines 116-132): the container-less
shape, overwritten by the container-qualified shape when containerType is
truthy. -/
def receiveUrl (a : ReceiveAccess) : String :=
  if pyTruthyStr a.containerType then
    rstripSlash a.baseUrl ++ "/REST/projects/" ++ a.project ++ "/subjects/" ++
      a.subject ++ "/experiments/" ++ a.session ++ "/" ++
      pyStrOfOpt a.containerType ++ "/" ++ pyStrOfOpt a.container ++
      "/resources/" ++ a.resource ++ "/files/" ++ a.file
  else
    rstripSlash a.baseUrl ++ "/REST/projects/" ++ a.project ++ "/subjects/" ++
      a.subject ++ "/experiments/" ++ a.session ++ "/resources/" ++
      a.resource ++ "/files/" ++ a.file

/-- The streamed GET issued by receive (http.py lines 134-139). -/
def receiveGetCall (a : ReceiveAccess) : Call :=
  { method := Method.get
    url := receiveUrl a
    auth := auth_method_obj a.auth
    cookies := false
    verify := receiveVerify a
    stream := true
    bodyFromLocalPath := none }

/-- The session-invalidation DELETE issued by receive (http.py lines 150-154). -/
def receiveDeleteSessionCall (a : ReceiveAccess) : Call :=
  { method := Method.delete
    url := rstripSlash a.baseUrl ++ "/data/JSESSION"
    auth := none
    cookies := true
    verify := receiveVerify a
    stream := false
    bodyFromLocalPath := none }

/-- The resource value used by send: the resource field, defaulting to
OTHER when absent (http.py line 175). -/
def sendResource (a : SendAccess) : String :=
  a.resource.getD ("OTHER")

/-- The container listing GET of send (http.py lines 180-186). -/
def sendListContainersCall (a : SendAccess) : Call :=
  { method := Method.get
    url := rstripSlash a.baseUrl ++ "/REST/projects/" ++ a.project ++
      "/subjects/" ++ a.subject ++ "/experiments/" ++ a.session ++ "/" ++
      a.containerType ++ "?format=json"
    auth := auth_method_obj a.auth
    cookies := false
    verify := sendVerify a
    stream := false
    bodyFromLocalPath := none }

/-- The resource listing GET of send (http.py lines 201-207). -/
def sendListResourcesCall (a : SendAccess) : Call :=
  { method := Method.get
    url := rstripSlash a.baseUrl ++ "/REST/projects/" ++ a.project ++
      "/subjects/" ++ a.subject ++ "/experiments/" ++ a.session ++ "/" ++
      a.containerType ++ "/" ++ a.container ++ "/resources?format=json"
    auth := none
    cookies := true
    verify := sendVerify a
    stream := false
    bodyFromLocalPath := none }

/-- The file listing GET of send (http.py lines 218-224). -/
def sendListFilesCall (a : SendAccess) : Call :=
  { method := Method.get
    url := rstripSlash a.baseUrl ++ "/REST/projects/" ++ a.project ++
      "/subjects/" ++ a.subject ++ "/experiments/" ++ a.session ++ "/" ++
      a.containerType ++ "/" ++ a.container ++ "/resources/" ++
      sendResource a ++ "/files?format=json"
    auth := none
    cookies := true
    verify := sendVerify a
    stream := false
    bodyFromLocalPath := none }

/-- The file DELETE of send (http.py lines 236-242). -/
def sendDeleteFileCall (a : SendAccess) : Call :=
  { method := Method.delete
    url := rstripSlash a.baseUrl ++ "/REST/projects/" ++ a.project ++
      "/subjects/" ++ a.subject ++ "/experiments/" ++ a.session ++ "/" ++
      a.containerType ++ "/" ++ a.container ++ "/resources/" ++
      sendResource a ++ "/files/" ++ a.file
    auth := none
    cookies := true
    verify := sendVerify a
    stream := false
    bodyFromLocalPath := none }

/-- The container DELETE of send (http.py lines 246-252). -/
def sendDeleteContainerCall (a : SendAccess) : Call :=
  { method := Method.delete
    url := rstripSlash a.baseUrl ++ "/REST/projects/" ++ a.project ++
      "/subjects/" ++ a.subject ++ "/experiments/" ++ a.session ++ "/" ++
      a.containerType ++ "/" ++ a.container
    auth := none
    cookies := true
    verify := sendVerify a
    stream := false
    bodyFromLocalPath := none }

/-- The container-creating PUT of send, carrying the xsiType query
parameter (http.py lines 256-262). -/
def sendCreateContainerCall (a : SendAccess) : Call :=
  { method := Method.put
    url := rstripSlash a.baseUrl ++ "/REST/projects/" ++ a.project ++
      "/subjects/" ++ a.subject ++ "/experiments/" ++ a.session ++ "/" ++
      a.containerType ++ "/" ++ a.container ++ "?xsiType=" ++ a.xsiType
    auth := none
    cookies := true
    verify := sendVerify a
    stream := false
    bodyFromLocalPath := none }

/-- The file-creating PUT of send, streaming the local file as the request
body (http.py lines 266-275). -/
def sendCreateFileCall (a : SendAccess) (i : Internal) : Call :=
  { method := Method.put
    url := rstripSlash a.baseUrl ++ "/REST/projects/" ++ a.project ++
      "/subjects/" ++ a.subject ++ "/experiments/" ++ a.session ++ "/" ++
      a.containerType ++ "/" ++ a.container ++ "/resources/" ++
      sendResource a ++ "/files/" ++ a.file ++ "?inbody=true"
    auth := none
    cookies := true
    verify := sendVerify a
    stream := false
    bodyFromLocalPath := some i.path }

/-- The session-invalidation DELETE of send (http.py lines 278-284). -/
def sendDeleteSessionCall (a : SendAccess) : Call :=
  { method := Method.delete
    url := rstripSlash a.baseUrl ++ "/data/JSESSION"
    auth := none
    cookies := true
    verify := sendVerify a
    stream := false
    bodyFromLocalPath := none }

/-- The conflict message raised at http.py line 199. -/
def sendConflictMsg (container : String) : String :=
  "Container " ++ container ++ " already exists and upsert is not set."

namespace Http

/-- Translation of Http.receive (http.py lines 108-155): build the URL,
issue the streamed authenticated GET and check its status, open the local
path for writing and stream the body into it, then invalidate the session
with a cookie-bearing DELETE and check its status.  The second
raise_for_status at line 146 re-checks the GET response already known to be
successful and is a no-op. -/
def receive (a : ReceiveAccess) (i : Internal) (srv : Server) : OpResult :=
  if raisesForStatus (srv.statusAt 0) then
    { events := [Event.net (receiveGetCall a)]
      outcome := Outcome.httpError (srv.statusAt 0) }
  else if raisesForStatus (srv.statusAt 1) then
    { events := [Event.net (receiveGetCall a), Event.openLocalWrite i.path,
                 Event.net (receiveDeleteSessionCall a)]
      outcome := Outcome.httpError (srv.statusAt 1) }
  else
    { events := [Event.net (receiveGetCall a), Event.openLocalWrite i.path,
                 Event.net (receiveDeleteSessionCall a)]
      outcome := Outcome.ok }

/-- The create phase of send (http.py lines 255-285): create the container
with the xsiType PUT, open the local file and stream it into the
file-creating PUT, then invalidate the session.  done is the event list
already performed and k the number of network calls already issued. -/
def sendCreatePhase (a : SendAccess) (i : Internal) (srv : Server)
    (done : List Event) (k : Nat) : OpResult :=
  if raisesForStatus (srv.statusAt k) then
    { events := done ++ [Event.net (sendCreateContainerCall a)]
      outcome := Outcome.httpError (srv.statusAt k) }
  else if raisesForStatus (srv.statusAt (k + 1)) then
    { events := done ++ [Event.net (sendCreateContainerCall a),
        Event.openLocalRead i.path, Event.net (sendCreateFileCall a i)]
      outcome := Outcome.httpError (srv.statusAt (k + 1)) }
  else if raisesForStatus (srv.statusAt (k + 2)) then
    { events := done ++ [Event.net (sendCreateContainerCall a),
        Event.openLocalRead i.path, Event.net (sendCreateFileCall a i),
        Event.net (sendDeleteSessionCall a)]
      outcome := Outcome.httpError (srv.statusAt (k + 2)) }
  else
    { events := done ++ [Event.net (sendCreateContainerCall a),
        Event.openLocalRead i.path, Event.net (sendCreateFileCall a i),
        Event.net (sendDeleteSessionCall a)]
      outcome := Outcome.ok }

/-- The replace phase of send (http.py lines 245-253 followed by the create
phase): delete the whole container, then create. -/
def sendDeleteContainerPhase (a : SendAccess) (i : Internal) (srv : Server)
    (done : List Event) (k : Nat) : OpResult :=
  if raisesForStatus (srv.statusAt k) then
    { events := done ++ [Event.net (sendDeleteContainerCall a)]
      outcome := Outcome.httpError (srv.statusAt k) }
  else
    sendCreatePhase a i srv (done ++ [Event.net (sendDeleteContainerCall a)]) (k + 1)

/-- Translation of Http.send (http.py lines 161-285).  List the containers
of the containerType (ID fields); when the container exists: fail with the
conflict exception unless upsert is set, otherwise list the resources
(label fields), list the files (Name fields) when the resource exists,
delete the file when it exists, and delete the container; in every
surviving path create the container, create the file and invalidate the
session.  Every response status is checked in issue order. -/
def send (a : SendAccess) (i : Internal) (srv : Server) : OpResult :=
  if raisesForStatus (srv.statusAt 0) then
    { events := [Event.net (sendListContainersCall a)]
      outcome := Outcome.httpError (srv.statusAt 0) }
  else if a.container ∈ srv.containers then
    if ¬ (a.upsert = some true) then
      { events := [Event.net (sendListContainersCall a)]
        outcome := Outcome.conflictError (sendConflictMsg a.container) }
    else if raisesForStatus (srv.statusAt 1) then
      { events := [Event.net (sendListContainersCall a),
                   Event.net (sendListResourcesCall a)]
        outcome := Outcome.httpError (srv.statusAt 1) }
    else if sendResource a ∈ srv.resources then
      if raisesForStatus (srv.statusAt 2) then
        { events := [Event.net (sendListContainersCall a),
                     Event.net (sendListResourcesCall a),
                     Event.net (sendListFilesCall a)]
          outcome := Outcome.httpError (srv.statusAt 2) }
      else if a.file ∈ srv.files then
        if raisesForStatus (srv.statusAt 3) then
          { events := [Event.net (sendListContainersCall a),
                       Event.net (sendListResourcesCall a),
                       Event.net (sendListFilesCall a),
                       Event.net (sendDeleteFileCall a)]
            outcome := Outcome.httpError (srv.statusAt 3) }
        else
          sendDeleteContainerPhase a i srv
            [Event.net (sendListContainersCall a),
             Event.net (sendListResourcesCall a),
             Event.net (sendListFilesCall a),
             Event.net (sendDeleteFileCall a)] 4
      else
        sendDeleteContainerPhase a i srv
          [Event.net (sendListContainersCall a),
           Event.net (sendListResourcesCall a),
           Event.net (sendListFilesCall a)] 3
    else
      sendDeleteContainerPhase a i srv
        [Event.net (sendListContainersCall a),
         Event.net (sendListResourcesCall a)] 2
  else
    sendCreatePhase a i srv [Event.net (sendListContainersCall a)] 1

end Http

/-! ## JSON values and the two validation schemas -/

/-- A JSON value, as handled by the jsonschema validator. -/
inductive JsonVal where
  | jnull
  | jbool (b : Bool)
  | jnum (n : Int)
  | jstr (s : String)
  | jarr (elems : List JsonVal)
  | jobj (fields : List (String × JsonVal))

/-- Whether a JSON value is a string. -/
def JsonVal.isStr : JsonVal → Bool
  | JsonVal.jstr _ => true
  | _ => false

/-- Whether a JSON value is a boolean. -/
def JsonVal.isBool : JsonVal → Bool
  | JsonVal.jbool _ => true
  | _ => false

/-- First value bound to a key in an object field list. -/
def jlookup : List (String × JsonVal) → String → Option JsonVal
  | [], _ => none
  | kv :: rest, key => if kv.fst == key then some kv.snd else jlookup rest key

/-- Whether an object field list binds a key. -/
def hasKey (fields : List (String × JsonVal)) (key : String) : Bool :=
  (jlookup fields key).isSome

/-- The containerType enum of both schemas (http.py lines 21 and 50):
one of scans, reconstructions, assessors. -/
def containerTypeEnumOk : JsonVal → Bool
  | JsonVal.jstr s => s == "scans" || s == "reconstructions" || s == "assessors"
  | _ => false

/-- The auth sub-schema shared by both schemas (http.py lines 27-35):
an object with only the string properties username and password, both
required, no additional properties. -/
def authSchemaOk : JsonVal → Bool
  | JsonVal.jobj fields =>
      fields.all (fun kv =>
        if kv.fst == "username" then kv.snd.isStr
        else if kv.fst == "password" then kv.snd.isStr
        else false)
      && hasKey fields ("username") && hasKey fields ("password")
  | _ => false

/-- Property check of http_send_schema (http.py lines 16-37): the allowed
keys with their types; any other key violates additionalProperties False. -/
def sendPropOk (key : String) (v : JsonVal) : Bool :=
  if key == "baseUrl" then v.isStr
  else if key == "project" then v.isStr
  else if key == "subject" then v.isStr
  else if key == "session" then v.isStr
  else if key == "containerType" then containerTypeEnumOk v
  else if key == "container" then v.isStr
  else if key == "resource" then v.isStr
  else if key == "xsiType" then v.isStr
  else if key == "file" then v.isStr
  else if key == "upsert" then v.isBool
  else if key == "auth" then authSchemaOk v
  else if key == "disableSSLVerification" then v.isBool
  else false

/-- http_send_schema (http.py lines 14-40): an object whose every field is
an allowed property of the right type and which has every required key. -/
def http_send_schema_accepts : JsonVal → Bool
  | JsonVal.jobj fields =>
      fields.all (fun kv => sendPropOk kv.fst kv.snd)
      && ["baseUrl", "project", "subject", "session", "containerType",
          "container", "xsiType", "file", "auth"].all (fun k => hasKey fields k)
  | _ => false

/-- Property check of the container-qualified branch of http_receive_schema
(http.py lines 45-64). -/
def recvQualPropOk (key : String) (v : JsonVal) : Bool :=
  if key == "baseUrl" then v.isStr
  else if key == "project" then v.isStr
  else if key == "subject" then v.isStr
  else if key == "session" then v.isStr
  else if key == "containerType" then containerTypeEnumOk v
  else if key == "container" then v.isStr
  else if key == "resource" then v.isStr
  else if key == "file" then v.isStr
  else if key == "auth" then authSchemaOk v
  else if key == "disableSSLVerification" then v.isBool
  else false

/-- Property check of the container-less branch of http_receive_schema
(http.py lines 70-88). -/
def recvLessPropOk (key : String) (v : JsonVal) : Bool :=
  if key == "baseUrl" then v.isStr
  else if key == "project" then v.isStr
  else if key == "subject" then v.isStr
  else if key == "session" then v.isStr
  else if key == "resource" then v.isStr
  else if key == "file" then v.isStr
  else if key == "auth" then authSchemaOk v
  else if key == "disableSSLVerification" then v.isBool
  else false

/-- The container-qualified branch of http_receive_schema (http.py lines
43-68). -/
def recvQualShapeAccepts : JsonVal → Bool
  | JsonVal.jobj fields =>
      fields.all (fun kv => recvQualPropOk kv.fst kv.snd)
      && ["baseUrl", "project", "subject", "session", "containerType",
          "container", "resource", "file", "auth"].all (fun k => hasKey fields k)
  | _ => false

/-- The container-less branch of http_receive_schema (http.py lines
69-91). -/
def recvLessShapeAccepts : JsonVal → Bool
  | JsonVal.jobj fields =>
      fields.all (fun kv => recvLessPropOk kv.fst kv.snd)
      && ["baseUrl", "project", "subject", "session", "resource", "file",
          "auth"].all (fun k => hasKey fields k)
  | _ => false

/-- http_receive_schema (http.py lines 42-92): oneOf the two branches,
meaning exactly one of them validates. -/
def http_receive_schema_accepts (j : JsonVal) : Bool :=
  (recvQualShapeAccepts j && !recvLessShapeAccepts j)
  || (!recvQualShapeAccepts j && recvLessShapeAccepts j)

/-- Result of a validator: acceptance, or the SchemaViolation failure the
spec names (jsonschema.ValidationError in the code). -/
inductive ValidateResult where
  | ok
  | schemaViolation
deriving DecidableEq

/-- Translation of Http.send_validate (http.py lines 287-289):
jsonschema.validate of the access description against http_send_schema,
raising on mismatch.  Pure: no network activity, no other effect. -/
def Http.send_validate (j : JsonVal) : ValidateResult :=
  if http_send_schema_accepts j then ValidateResult.ok
  else ValidateResult.schemaViolation

/-- Translation of Http.receive_validate (http.py lines 157-159):
jsonschema.validate of the access description against http_receive_schema,
raising on mismatch.  Pure: no network activity, no other effect. -/
def Http.receive_validate (j : JsonVal) : ValidateResult :=
  if http_receive_schema_accepts j then ValidateResult.ok
  else ValidateResult.schemaViolation

/-! ### Spec-side shapes, written from the words of the spec

The following definitions are written from the specification text (sections
3, 4.1 and 6), not from the code, to be compared with the schema
translations above. -/

/-- Field type in a spec-side shape. -/
inductive FieldTy where
  | tStr
  | tBool
  | tContainerTypeEnum
  | tAuth

/-- Spec-side auth object (spec section 3): username and password strings,
both present, nothing else. -/
def specAuthOk : JsonVal → Bool
  | JsonVal.jobj fields =>
      fields.all (fun kv =>
        if kv.fst == "username" then kv.snd.isStr
        else if kv.fst == "password" then kv.snd.isStr
        else false)
      && hasKey fields ("username") && hasKey fields ("password")
  | _ => false

/-- Spec-side check of one field type against a JSON value. -/
def fieldTyOk : FieldTy → JsonVal → Bool
  | FieldTy.tStr, v => v.isStr
  | FieldTy.tBool, v => v.isBool
  | FieldTy.tContainerTypeEnum, v =>
      match v with
      | JsonVal.jstr s => s == "scans" || s == "reconstructions" || s == "assessors"
      | _ => false
  | FieldTy.tAuth, v => specAuthOk v

/-- Whether a key is an allowed field of a shape and its value has the
declared type. -/
def fieldOkIn : List (String × FieldTy) → String → JsonVal → Bool
  | [], _, _ => false
  | p :: rest, key, v =>
      if key == p.fst then fieldTyOk p.snd v else fieldOkIn rest key v

/-- A spec-side shape accepts an object whose every field is allowed with
the right type (no additional properties) and which has every required
key. -/
def shapeAccepts (props : List (String × FieldTy)) (required : List String) :
    JsonVal → Bool
  | JsonVal.jobj fields =>
      fields.all (fun kv => fieldOkIn props kv.fst kv.snd)
      && required.all (fun k => hasKey fields k)
  | _ => false

/-- The send shape from spec sections 3 and 4.1: baseUrl, project, subject,
session, containerType (enum), container, xsiType, file, auth required;
resource, upsert and disableSSLVerification optional. -/
def specSendProps : List (String × FieldTy) :=
  [("baseUrl", FieldTy.tStr), ("project", FieldTy.tStr),
   ("subject", FieldTy.tStr), ("session", FieldTy.tStr),
   ("containerType", FieldTy.tContainerTypeEnum), ("container", FieldTy.tStr),
   ("resource", FieldTy.tStr), ("xsiType", FieldTy.tStr),
   ("file", FieldTy.tStr), ("upsert", FieldTy.tBool),
   ("auth", FieldTy.tAuth), ("disableSSLVerification", FieldTy.tBool)]

/-- Required keys of the send shape (spec section 4.1). -/
def specSendRequired : List String :=
  ["baseUrl", "project", "subject", "session", "containerType", "container",
   "xsiType", "file", "auth"]

/-- Spec-side send validation: the single send shape. -/
def specSendAccepts (j : JsonVal) : Bool :=
  shapeAccepts specSendProps specSendRequired j

/-- The container-qualified receive shape from spec section 4.1. -/
def specRecvQualProps : List (String × FieldTy) :=
  [("baseUrl", FieldTy.tStr), ("project", FieldTy.tStr),
   ("subject", FieldTy.tStr), ("session", FieldTy.tStr),
   ("containerType", FieldTy.tContainerTypeEnum), ("container", FieldTy.tStr),
   ("resource", FieldTy.tStr), ("file", FieldTy.tStr),
   ("auth", FieldTy.tAuth), ("disableSSLVerification", FieldTy.tBool)]

/-- Required keys of the container-qualified receive shape. -/
def specRecvQualRequired : List String :=
  ["baseUrl", "project", "subject", "session", "containerType", "container",
   "resource", "file", "auth"]

/-- The container-less receive shape from spec section 4.1. -/
def specRecvLessProps : List (String × FieldTy) :=
  [("baseUrl", FieldTy.tStr), ("project", FieldTy.tStr),
   ("subject", FieldTy.tStr), ("session", FieldTy.tStr),
   ("resource", FieldTy.tStr), ("file", FieldTy.tStr),
   ("auth", FieldTy.tAuth), ("disableSSLVerification", FieldTy.tBool)]

/-- Required keys of the container-less receive shape. -/
def specRecvLessRequired : List String :=
  ["baseUrl", "project", "subject", "session", "resource", "file", "auth"]

/-- Spec-side receive validation: exactly one of the two shapes matches,
never a mix. -/
def specReceiveAccepts (j : JsonVal) : Bool :=
  (shapeAccepts specRecvQualProps specRecvQualRequired j
     && !shapeAccepts specRecvLessProps specRecvLessRequired j)
  || (!shapeAccepts specRecvQualProps specRecvQualRequired j
     && shapeAccepts specRecvLessProps specRecvLessRequired j)

/-! ## Spec-side URL shapes (spec section 4.3) -/

/-- The container-less URL shape, written from the words of spec section
4.3: base (trailing slashes stripped) followed by
REST/projects/../subjects/../experiments/../resources/../files/.. . -/
def specContainerlessUrl (a : ReceiveAccess) : String :=
  rstripSlash a.baseUrl ++ "/REST/projects/" ++ a.project ++ "/subjects/" ++
    a.subject ++ "/experiments/" ++ a.session ++ "/resources/" ++
    a.resource ++ "/files/" ++ a.file

/-- The container-qualified URL shape, written from the words of spec
section 4.3: the containerType and container segments are inserted between
the experiment segment and the resources segment. -/
def specQualifiedUrl (a : ReceiveAccess) (ct c : String) : String :=
  rstripSlash a.baseUrl ++ "/REST/projects/" ++ a.project ++ "/subjects/" ++
    a.subject ++ "/experiments/" ++ a.session ++ "/" ++ ct ++ "/" ++ c ++
    "/resources/" ++ a.resource ++ "/files/" ++ a.file

/-! ## Helper lemmas -/

theorem dropWhile_replicate_append (p : Char → Bool) (c : Char)
    (hc : p c = true) (n : Nat) (l : List Char) :
    List.dropWhile p (List.replicate n c ++ l) = List.dropWhile p l := by
  induction n with
  | zero => rfl
  | succ m ih => simp [List.replicate_succ, List.dropWhile_cons, hc, ih]

theorem rstripSlash_append_slashes (b : String) (n : Nat) :
    rstripSlash (b ++ slashes n) = rstripSlash b := by
  have h1 : (b ++ slashes n).toList = b.toList ++ List.replicate n '/' :=
    String.data_append b (slashes n)
  simp only [rstripSlash, h1, List.reverse_append, List.reverse_replicate,
    dropWhile_replicate_append (fun ch => ch == '/') '/' (by decide)]

/-! ## Claims -/

/-- C5: for every valid receive descriptor, exactly one of the two URL
shapes is produced — the container-qualified shape when containerType is
present (necessarily one of the enum values, hence non-empty and truthy),
and the container-less shape when it is absent. -/
theorem c5_receive_url_shape (a : ReceiveAccess) :
    (a.containerType = none → receiveUrl a = specContainerlessUrl a)
    ∧ (∀ ct c, a.containerType = some ct →
        (ct = "scans" ∨ ct = "reconstructions" ∨ ct = "assessors") →
        a.container = some c → receiveUrl a = specQualifiedUrl a ct c) := by
  constructor
  · intro h
    simp [receiveUrl, pyTruthyStr, h, specContainerlessUrl]
  · intro ct c hct henum hc
    have hne : ct.isEmpty = false := by
      rcases henum with h | h | h <;> subst h <;> decide
    simp [receiveUrl, pyTruthyStr, hct, hc, hne, pyStrOfOpt, specQualifiedUrl]

/-- Witness for C5 at a concrete container-qualified descriptor. -/
theorem c5_receive_url_shape_witness :
    receiveUrl
      { baseUrl := "https://xnat.example.org/", project := "P1",
        subject := "S1", session := "E1", containerType := some ("scans"),
        container := some ("SCAN1"), resource := "DICOM", file := "a.dcm",
        auth := some { username := "u", password := "p" },
        disableSSLVerification := none }
    = specQualifiedUrl
      { baseUrl := "https://xnat.example.org/", project := "P1",
        subject := "S1", session := "E1", containerType := some ("scans"),
        container := some ("SCAN1"), resource := "DICOM", file := "a.dcm",
        auth := some { username := "u", password := "p" },
        disableSSLVerification := none } ("scans") ("SCAN1") :=
  (c5_receive_url_shape _).2 ("scans") ("SCAN1") rfl (Or.inl rfl) rfl

/-- C6: URL construction is pure and deterministic — equal descriptors give
the identical URL string — and appending any number of trailing slashes to
baseUrl never changes the constructed URLs, neither for receive nor for
any call of send. -/
theorem c6_url_pure_slash_invariant :
    (∀ a1 a2 : ReceiveAccess, a1 = a2 → receiveUrl a1 = receiveUrl a2)
    ∧ (∀ (a : ReceiveAccess) (n : Nat),
        receiveUrl { a with baseUrl := a.baseUrl ++ slashes n } = receiveUrl a)
    ∧ (∀ (a : SendAccess) (i : Internal) (srv : Server) (n : Nat),
        Http.send { a with baseUrl := a.baseUrl ++ slashes n } i srv
          = Http.send a i srv) := by
  refine ⟨fun a1 a2 h => by rw [h], ?_, ?_⟩
  · intro a n
    simp only [receiveUrl, rstripSlash_append_slashes]
  · intro a i srv n
    simp only [Http.send, Http.sendDeleteContainerPhase, Http.sendCreatePhase,
      sendListContainersCall, sendListResourcesCall, sendListFilesCall,
      sendDeleteFileCall, sendDeleteContainerCall, sendCreateContainerCall,
      sendCreateFileCall, sendDeleteSessionCall, sendResource, sendVerify,
      sendConflictMsg, rstripSlash_append_slashes]

/-- A concrete container-less receive descriptor used by witnesses. -/
def recvAccessLess : ReceiveAccess :=
  { baseUrl := "https://xnat.example.org", project := "P1",
    subject := "S1", session := "E1", containerType := none,
    container := none, resource := "DICOM", file := "a.dcm",
    auth := some { username := "u", password := "p" },
    disableSSLVerification := none }

/-- Witness for C6 at concrete inputs. -/
theorem c6_url_pure_slash_invariant_witness :
    receiveUrl recvAccessLess = receiveUrl recvAccessLess
    ∧ receiveUrl
        { recvAccessLess with
            baseUrl := recvAccessLess.baseUrl ++ slashes 3 }
      = receiveUrl recvAccessLess :=
  ⟨c6_url_pure_slash_invariant.1 recvAccessLess recvAccessLess rfl,
   c6_url_pure_slash_invariant.2.1 recvAccessLess 3⟩

/-- C7: the validators accept an access description exactly when it matches
the corresponding shape written from the spec (send: the single shape with
the nine required fields, resource, upsert and disableSSLVerification
optional; receive: exactly one of the container-qualified and
container-less shapes, no additional properties), and fail with
SchemaViolation otherwise.  Both validators are pure functions of the
description alone: they take no server and produce no event. -/
theorem c7_validate_iff_spec_shapes (j : JsonVal) :
    (Http.send_validate j = ValidateResult.ok ↔ specSendAccepts j = true)
    ∧ (Http.send_validate j = ValidateResult.schemaViolation
        ↔ specSendAccepts j = false)
    ∧ (Http.receive_validate j = ValidateResult.ok
        ↔ specReceiveAccepts j = true)
    ∧ (Http.receive_validate j = ValidateResult.schemaViolation
        ↔ specReceiveAccepts j = false) := by
  have hsend : ∀ x : JsonVal, http_send_schema_accepts x = specSendAccepts x := by
    intro x
    cases x <;> rfl
  have hrecv : ∀ x : JsonVal,
      http_receive_schema_accepts x = specReceiveAccepts x := by
    intro x
    cases x <;> rfl
  cases hS : specSendAccepts j <;> cases hR : specReceiveAccepts j <;>
    simp [Http.send_validate, Http.receive_validate, hsend, hrecv, hS, hR]

/-- Whether a call is a PUT. -/
def isPut (c : Call) : Bool :=
  match c.method with
  | Method.put => true
  | _ => false

/-- Whether a call is a DELETE. -/
def isDelete (c : Call) : Bool :=
  match c.method with
  | Method.delete => true
  | _ => false

/-- Whether a call mutates remote state (PUT or DELETE). -/
def isMutating (c : Call) : Bool := isPut c || isDelete c

/-- A concrete send descriptor used by witnesses. -/
def sendAccessA : SendAccess :=
  { baseUrl := "https://xnat.example.org", project := "P1", subject := "S1",
    session := "E1", containerType := "scans", container := "SCAN1",
    resource := some ("DICOM"), xsiType := "xnat:mrScanData",
    file := "a.dcm", upsert := some true,
    auth := some { username := "u", password := "p" },
    disableSSLVerification := none }

/-- A concrete local-path descriptor used by witnesses. -/
def intLocal : Internal := { path := "/data/local/a.dcm" }

/-- A server on which container SCAN1, resource DICOM and file a.dcm all
exist and every call succeeds. -/
def srvFull : Server :=
  { containers := ["SCAN1"], resources := ["DICOM"], files := ["a.dcm"],
    statuses := [] }

/-- A server on which nothing exists and every call succeeds. -/
def srvEmpty : Server :=
  { containers := [], resources := [], files := [], statuses := [] }

/-- C1: when the container exists, upsert is set, the resource exists and
the file exists, and every response is successful, send issues exactly the
three listing GETs followed by the mutating calls in the order delete file,
delete container, create container (the PUT carrying the xsiType query
parameter), create file (the PUT streaming the local file), followed by the
session-invalidation DELETE, and returns normally.  The third conjunct
extracts the mutating (PUT or DELETE) calls in order. -/
theorem c1_send_full_replace_order (a : SendAccess) (i : Internal)
    (srv : Server)
    (hc : a.container ∈ srv.containers)
    (hu : a.upsert = some true)
    (hr : sendResource a ∈ srv.resources)
    (hf : a.file ∈ srv.files)
    (hok : ∀ j, j < 8 → ¬ raisesForStatus (srv.statusAt j)) :
    (Http.send a i srv).events =
      [Event.net (sendListContainersCall a),
       Event.net (sendListResourcesCall a),
       Event.net (sendListFilesCall a),
       Event.net (sendDeleteFileCall a),
       Event.net (sendDeleteContainerCall a),
       Event.net (sendCreateContainerCall a),
       Event.openLocalRead i.path,
       Event.net (sendCreateFileCall a i),
       Event.net (sendDeleteSessionCall a)]
    ∧ (Http.send a i srv).outcome = Outcome.ok
    ∧ (netCalls (Http.send a i srv).events).filter isMutating =
      [sendDeleteFileCall a, sendDeleteContainerCall a,
       sendCreateContainerCall a, sendCreateFileCall a i,
       sendDeleteSessionCall a] := by
  have h0 := hok 0 (by omega)
  have h1 := hok 1 (by omega)
  have h2 := hok 2 (by omega)
  have h3 := hok 3 (by omega)
  have h4 := hok 4 (by omega)
  have h5 := hok 5 (by omega)
  have h6 := hok 6 (by omega)
  have h7 := hok 7 (by omega)
  have hev : Http.send a i srv =
      { events :=
          [Event.net (sendListContainersCall a),
           Event.net (sendListResourcesCall a),
           Event.net (sendListFilesCall a),
           Event.net (sendDeleteFileCall a),
           Event.net (sendDeleteContainerCall a),
           Event.net (sendCreateContainerCall a),
           Event.openLocalRead i.path,
           Event.net (sendCreateFileCall a i),
           Event.net (sendDeleteSessionCall a)]
        outcome := Outcome.ok } := by
    simp [Http.send, Http.sendDeleteContainerPhase, Http.sendCreatePhase,
      hc, hu, hr, hf, h0, h1, h2, h3, h4, h5, h6, h7]
  rw [hev]
  refine ⟨rfl, rfl, ?_⟩
  simp [netCalls, List.filter, isMutating, isPut, isDelete,
    sendListContainersCall, sendListResourcesCall, sendListFilesCall,
    sendDeleteFileCall, sendDeleteContainerCall, sendCreateContainerCall,
    sendCreateFileCall, sendDeleteSessionCall]

/-- Witness for C1 at concrete inputs on which all three levels exist. -/
theorem c1_send_full_replace_order_witness :
    sendAccessA.container ∈ srvFull.containers
    ∧ sendAccessA.upsert = some true
    ∧ (∀ j, j < 8 → ¬ raisesForStatus (srvFull.statusAt j))
    ∧ (Http.send sendAccessA intLocal srvFull).outcome = Outcome.ok :=
  ⟨by decide, rfl, by decide,
   (c1_send_full_replace_order sendAccessA intLocal srvFull (by decide) rfl
     (by decide) (by decide) (by decide)).2.1⟩

/-- C2: when the container exists and upsert is false or absent, send stops
after the (successful) container listing with the conflict failure: the
event list is exactly the single listing GET — zero mutating calls, no
further network call, and in particular no session-invalidation DELETE. -/
theorem c2_send_conflict_when_no_upsert (a : SendAccess) (i : Internal)
    (srv : Server)
    (hc : a.container ∈ srv.containers)
    (hu : a.upsert = some false ∨ a.upsert = none)
    (h0 : ¬ raisesForStatus (srv.statusAt 0)) :
    Http.send a i srv =
      { events := [Event.net (sendListContainersCall a)]
        outcome := Outcome.conflictError (sendConflictMsg a.container) } := by
  have hu' : ¬ (a.upsert = some true) := by
    rcases hu with h | h <;> simp [h]
  simp [Http.send, hc, hu', h0]

/-- Witness for C2 at concrete inputs. -/
theorem c2_send_conflict_when_no_upsert_witness :
    { sendAccessA with upsert := none }.container ∈ srvFull.containers
    ∧ Http.send { sendAccessA with upsert := none } intLocal srvFull =
      { events := [Event.net (sendListContainersCall
          { sendAccessA with upsert := none })]
        outcome := Outcome.conflictError (sendConflictMsg
          { sendAccessA with upsert := none }.container) } :=
  ⟨by decide,
   c2_send_conflict_when_no_upsert { sendAccessA with upsert := none }
     intLocal srvFull (by decide) (Or.inr rfl) (by decide)⟩

/-- C3: when the container does not exist and every response is successful,
send issues exactly the listing GET, the container-creating PUT, the
file-creating PUT and the session-invalidation DELETE: exactly two mutating
data calls (create container then create file), and the only DELETE is the
session-invalidation teardown — zero deletes of remote data.  (The spec
counts the session teardown separately from the mutating calls, compare
its send step 8 and the C1 phrasing.) -/
theorem c3_send_create_only (a : SendAccess) (i : Internal) (srv : Server)
    (hc : a.container ∉ srv.containers)
    (hok : ∀ j, j < 4 → ¬ raisesForStatus (srv.statusAt j)) :
    (Http.send a i srv).events =
      [Event.net (sendListContainersCall a),
       Event.net (sendCreateContainerCall a),
       Event.openLocalRead i.path,
       Event.net (sendCreateFileCall a i),
       Event.net (sendDeleteSessionCall a)]
    ∧ (Http.send a i srv).outcome = Outcome.ok
    ∧ (netCalls (Http.send a i srv).events).filter isPut =
      [sendCreateContainerCall a, sendCreateFileCall a i]
    ∧ (netCalls (Http.send a i srv).events).filter isDelete =
      [sendDeleteSessionCall a] := by
  have h0 := hok 0 (by omega)
  have h1 := hok 1 (by omega)
  have h2 := hok 2 (by omega)
  have h3 := hok 3 (by omega)
  have hev : Http.send a i srv =
      { events :=
          [Event.net (sendListContainersCall a),
           Event.net (sendCreateContainerCall a),
           Event.openLocalRead i.path,
           Event.net (sendCreateFileCall a i),
           Event.net (sendDeleteSessionCall a)]
        outcome := Outcome.ok } := by
    simp [Http.send, Http.sendCreatePhase, hc, h0, h1, h2, h3]
  rw [hev]
  refine ⟨rfl, rfl, ?_, ?_⟩ <;>
    simp [netCalls, List.filter, isPut, isDelete,
      sendListContainersCall, sendCreateContainerCall, sendCreateFileCall,
      sendDeleteSessionCall]

/-- Witness for C3 at concrete inputs with an empty server. -/
theorem c3_send_create_only_witness :
    sendAccessA.container ∉ srvEmpty.containers
    ∧ (Http.send sendAccessA intLocal srvEmpty).outcome = Outcome.ok :=
  ⟨by decide,
   (c3_send_create_only sendAccessA intLocal srvEmpty (by decide)
     (by decide)).2.1⟩

/-- C9: when the initial GET of receive fails, the operation raises the
HttpError immediately: the only event is that GET, and in particular the
local destination is never opened for writing. -/
theorem c9_receive_no_local_write_on_failed_get (a : ReceiveAccess)
    (i : Internal) (srv : Server)
    (h : raisesForStatus (srv.statusAt 0)) :
    Http.receive a i srv =
      { events := [Event.net (receiveGetCall a)]
        outcome := Outcome.httpError (srv.statusAt 0) }
    ∧ ∀ p, Event.openLocalWrite p ∉ (Http.receive a i srv).events := by
  have hev : Http.receive a i srv =
      { events := [Event.net (receiveGetCall a)]
        outcome := Outcome.httpError (srv.statusAt 0) } := by
    simp [Http.receive, h]
  refine ⟨hev, ?_⟩
  intro p
  rw [hev]
  simp

/-- A server that answers the first call with status 404. -/
def srv404 : Server :=
  { containers := [], resources := [], files := [], statuses := [404] }

/-- Witness for C9 at a concrete failing server. -/
theorem c9_receive_no_local_write_on_failed_get_witness :
    raisesForStatus (srv404.statusAt 0)
    ∧ ∀ p, Event.openLocalWrite p ∉
        (Http.receive recvAccessLess intLocal srv404).events :=
  ⟨by decide,
   (c9_receive_no_local_write_on_failed_get recvAccessLess intLocal srv404
     (by decide)).2⟩

/-- C10: when the container does not exist, the whole behaviour of send —
events and outcome — is identical for every value of the upsert flag; the
flag is consulted only on the container-exists path. -/
theorem c10_upsert_irrelevant_without_container (a : SendAccess)
    (i : Internal) (srv : Server) (u1 u2 : Option Bool)
    (hc : a.container ∉ srv.containers) :
    Http.send { a with upsert := u1 } i srv
      = Http.send { a with upsert := u2 } i srv := by
  simp only [Http.send, Http.sendCreatePhase, sendListContainersCall,
    sendCreateContainerCall, sendCreateFileCall, sendDeleteSessionCall,
    sendVerify, sendResource, sendConflictMsg, hc, if_false]

/-- Witness for C10 at concrete inputs: upsert set versus absent. -/
theorem c10_upsert_irrelevant_without_container_witness :
    sendAccessA.container ∉ srvEmpty.containers
    ∧ Http.send { sendAccessA with upsert := some true } intLocal srvEmpty
      = Http.send { sendAccessA with upsert := none } intLocal srvEmpty :=
  ⟨by decide,
   c10_upsert_irrelevant_without_container sendAccessA intLocal srvEmpty
     (some true) none (by decide)⟩

theorem netCalls_append (xs ys : List Event) :
    netCalls (xs ++ ys) = netCalls xs ++ netCalls ys := by
  simp [netCalls]

/-- The propagation policy of the spec: every call before the last issued
one had a successful status (so the first non-success response stops the
operation — no retries, no further calls, no rollback), and the outcome is
an HttpError with status s exactly when the operation issued m + 1 calls,
the status of the last issued call raises, and s is that status,
unchanged. -/
def haltsAtFirstFailure (srv : Server) (r : OpResult) : Prop :=
  (∀ j, j + 1 < (netCalls r.events).length → ¬ raisesForStatus (srv.statusAt j))
  ∧ ∀ s, r.outcome = Outcome.httpError s ↔
      ∃ m, (netCalls r.events).length = m + 1
        ∧ raisesForStatus (srv.statusAt m) ∧ s = srv.statusAt m

theorem halts_err_leaf (srv : Server) (evs : List Event) (m : Nat)
    (hm : (netCalls evs).length = m + 1)
    (hr : raisesForStatus (srv.statusAt m))
    (hpre : ∀ j, j < m → ¬ raisesForStatus (srv.statusAt j)) :
    haltsAtFirstFailure srv
      { events := evs, outcome := Outcome.httpError (srv.statusAt m) } := by
  constructor
  · intro j hj
    rw [hm] at hj
    exact hpre j (by omega)
  · intro s
    constructor
    · intro h
      injection h with h2
      exact ⟨m, hm, hr, h2.symm⟩
    · rintro ⟨m2, hm2, hr2, rfl⟩
      rw [hm] at hm2
      have hmm : m2 = m := by omega
      rw [hmm]

theorem halts_noerr_leaf (srv : Server) (evs : List Event) (out : Outcome)
    (m : Nat)
    (hm : (netCalls evs).length = m)
    (hout : ∀ s, out ≠ Outcome.httpError s)
    (hpre : ∀ j, j < m → ¬ raisesForStatus (srv.statusAt j)) :
    haltsAtFirstFailure srv { events := evs, outcome := out } := by
  constructor
  · intro j hj
    rw [hm] at hj
    exact hpre j (by omega)
  · intro s
    constructor
    · intro h
      exact absurd h (hout s)
    · rintro ⟨m2, hm2, hr2, rfl⟩
      rw [hm] at hm2
      exact absurd hr2 (hpre m2 (by omega))

theorem sendCreatePhase_halts (a : SendAccess) (i : Internal) (srv : Server)
    (done : List Event) (k : Nat)
    (hk : (netCalls done).length = k)
    (hpre : ∀ j, j < k → ¬ raisesForStatus (srv.statusAt j)) :
    haltsAtFirstFailure srv (Http.sendCreatePhase a i srv done k) := by
  unfold Http.sendCreatePhase
  split_ifs with h6 h7 h8
  · exact halts_err_leaf srv _ k
      (by simp [netCalls_append, hk]) h6 hpre
  · refine halts_err_leaf srv _ (k + 1)
      (by simp [netCalls_append, hk]) h7 ?_
    intro j hj
    rcases Nat.lt_or_ge j k with h | h
    · exact hpre j h
    · have hjk : j = k := by omega
      rw [hjk]
      exact h6
  · refine halts_err_leaf srv _ (k + 2)
      (by simp [netCalls_append, hk]) h8 ?_
    intro j hj
    rcases Nat.lt_or_ge j k with h | h
    · exact hpre j h
    · have hjk : j = k ∨ j = k + 1 := by omega
      rcases hjk with hjk | hjk <;> rw [hjk]
      · exact h6
      · exact h7
  · refine halts_noerr_leaf srv _ Outcome.ok (k + 3)
      (by simp [netCalls_append, hk])
      (fun s h => Outcome.noConfusion h) ?_
    intro j hj
    rcases Nat.lt_or_ge j k with h | h
    · exact hpre j h
    · have hjk : j = k ∨ j = k + 1 ∨ j = k + 2 := by omega
      rcases hjk with hjk | hjk | hjk <;> rw [hjk]
      · exact h6
      · exact h7
      · exact h8

theorem sendDeleteContainerPhase_halts (a : SendAccess) (i : Internal)
    (srv : Server) (done : List Event) (k : Nat)
    (hk : (netCalls done).length = k)
    (hpre : ∀ j, j < k → ¬ raisesForStatus (srv.statusAt j)) :
    haltsAtFirstFailure srv (Http.sendDeleteContainerPhase a i srv done k) := by
  unfold Http.sendDeleteContainerPhase
  split_ifs with h5
  · exact halts_err_leaf srv _ k
      (by simp [netCalls_append, hk]) h5 hpre
  · refine sendCreatePhase_halts a i srv _ (k + 1)
      (by simp [netCalls_append, hk]) ?_
    intro j hj
    rcases Nat.lt_or_ge j k with h | h
    · exact hpre j h
    · have hjk : j = k := by omega
      rw [hjk]
      exact h5

/-- C8: in both send and receive, every response status is checked; the
first non-success status aborts all remaining steps — every call issued
before the last one succeeded, and the outcome is an HttpError exactly when
the last issued call failed, carrying that status unchanged.  No retries
are modelled and no compensating calls follow a failure: the failing call
is always the last event. -/
theorem c8_first_failure_aborts (a : SendAccess) (ra : ReceiveAccess)
    (i i2 : Internal) (srv srv2 : Server) :
    haltsAtFirstFailure srv (Http.send a i srv)
    ∧ haltsAtFirstFailure srv2 (Http.receive ra i2 srv2) := by
  constructor
  · unfold Http.send
    split_ifs with h1 h2 h3 h4 h5 h6 h7 h8
    · exact halts_err_leaf srv _ 0 (by simp) h1
        (fun j hj => absurd hj (by omega))
    · refine halts_err_leaf srv _ 1 (by simp) h4 ?_
      intro j hj
      have hj0 : j = 0 := by omega
      rw [hj0]
      exact h1
    · refine halts_err_leaf srv _ 2 (by simp) h6 ?_
      intro j hj
      have hj0 : j = 0 ∨ j = 1 := by omega
      rcases hj0 with hj0 | hj0 <;> rw [hj0]
      · exact h1
      · exact h4
    · refine halts_err_leaf srv _ 3 (by simp) h8 ?_
      intro j hj
      have hj0 : j = 0 ∨ j = 1 ∨ j = 2 := by omega
      rcases hj0 with hj0 | hj0 | hj0 <;> rw [hj0]
      · exact h1
      · exact h4
      · exact h6
    · refine sendDeleteContainerPhase_halts a i srv _ 4 (by simp) ?_
      intro j hj
      have hj0 : j = 0 ∨ j = 1 ∨ j = 2 ∨ j = 3 := by omega
      rcases hj0 with hj0 | hj0 | hj0 | hj0 <;> rw [hj0]
      · exact h1
      · exact h4
      · exact h6
      · exact h8
    · refine sendDeleteContainerPhase_halts a i srv _ 3 (by simp) ?_
      intro j hj
      have hj0 : j = 0 ∨ j = 1 ∨ j = 2 := by omega
      rcases hj0 with hj0 | hj0 | hj0 <;> rw [hj0]
      · exact h1
      · exact h4
      · exact h6
    · refine sendDeleteContainerPhase_halts a i srv _ 2 (by simp) ?_
      intro j hj
      have hj0 : j = 0 ∨ j = 1 := by omega
      rcases hj0 with hj0 | hj0 <;> rw [hj0]
      · exact h1
      · exact h4
    · refine halts_noerr_leaf srv _ _ 1 (by simp)
        (fun s h => Outcome.noConfusion h) ?_
      intro j hj
      have hj0 : j = 0 := by omega
      rw [hj0]
      exact h1
    · refine sendCreatePhase_halts a i srv _ 1 (by simp) ?_
      intro j hj
      have hj0 : j = 0 := by omega
      rw [hj0]
      exact h1
  · unfold Http.receive
    split_ifs with g1 g2
    · exact halts_err_leaf srv2 _ 0 (by simp) g1
        (fun j hj => absurd hj (by omega))
    · refine halts_err_leaf srv2 _ 1 (by simp) g2 ?_
      intro j hj
      have hj0 : j = 0 := by omega
      rw [hj0]
      exact g1
    · refine halts_noerr_leaf srv2 _ Outcome.ok 2 (by simp)
        (fun s h => Outcome.noConfusion h) ?_
      intro j hj
      have hj0 : j = 0 ∨ j = 1 := by omega
      rcases hj0 with hj0 | hj0 <;> rw [hj0]
      · exact g1
      · exact g2

/-- Counterexample to C4 as stated: on a successful receive with auth
present in the descriptor, the second issued call — the
session-invalidation DELETE (http.py lines 150-154) — passes no basic-auth
credential at all (it authenticates with the session cookie), so not every
HTTP call carries the basic-auth header. -/
theorem c4_every_call_basic_auth_counterexample :
    recvAccessLess.auth = some { username := "u", password := "p" }
    ∧ ∃ c ∈ netCalls (Http.receive recvAccessLess intLocal srvEmpty).events,
        c.auth = none := by
  decide

/-- Whether an event is either not a network call or a call that carries no
basic-auth credential and attaches the session cookies. -/
def eventCookieOnly : Event → Bool
  | Event.net c => decide (c.auth = none ∧ c.cookies = true)
  | _ => true

theorem net_mem_of_mem_netCalls (evs : List Event) (c : Call)
    (h : c ∈ netCalls evs) : Event.net c ∈ evs := by
  induction evs with
  | nil => simp at h
  | cons e rest ih =>
    cases e with
    | net c2 =>
      rw [netCalls_cons_net, List.mem_cons] at h
      rcases h with rfl | h
      · exact List.mem_cons_self _ _
      · exact List.mem_cons_of_mem _ (ih h)
    | openLocalWrite p =>
      rw [netCalls_cons_write] at h
      exact List.mem_cons_of_mem _ (ih h)
    | openLocalRead p =>
      rw [netCalls_cons_read] at h
      exact List.mem_cons_of_mem _ (ih h)

theorem sendCreatePhase_shape (a : SendAccess) (i : Internal) (srv : Server)
    (done : List Event) (k : Nat) :
    ∃ rest, (Http.sendCreatePhase a i srv done k).events = done ++ rest
      ∧ ∀ e ∈ rest, eventCookieOnly e = true := by
  unfold Http.sendCreatePhase
  split_ifs <;>
    (refine ⟨_, rfl, ?_⟩
     simp [eventCookieOnly, List.forall_mem_cons, sendCreateContainerCall,
       sendCreateFileCall, sendDeleteSessionCall])

theorem sendDeleteContainerPhase_shape (a : SendAccess) (i : Internal)
    (srv : Server) (done : List Event) (k : Nat) :
    ∃ rest, (Http.sendDeleteContainerPhase a i srv done k).events = done ++ rest
      ∧ ∀ e ∈ rest, eventCookieOnly e = true := by
  unfold Http.sendDeleteContainerPhase
  split_ifs with h5
  · refine ⟨_, rfl, ?_⟩
    simp [eventCookieOnly, List.forall_mem_cons, sendDeleteContainerCall]
  · obtain ⟨rest2, hev, hrest⟩ := sendCreatePhase_shape a i srv
      (done ++ [Event.net (sendDeleteContainerCall a)]) (k + 1)
    refine ⟨Event.net (sendDeleteContainerCall a) :: rest2, ?_, ?_⟩
    · rw [hev, List.append_assoc]
      simp
    · intro e he
      rcases List.mem_cons.mp he with rfl | he2
      · simp [eventCookieOnly, sendDeleteContainerCall]
      · exact hrest e he2

theorem send_events_shape (a : SendAccess) (i : Internal) (srv : Server) :
    ∃ rest, (Http.send a i srv).events
        = Event.net (sendListContainersCall a) :: rest
      ∧ ∀ e ∈ rest, eventCookieOnly e = true := by
  unfold Http.send
  split_ifs with h1 h2 h3 h4 h5 h6 h7 h8
  · exact ⟨[], rfl, by simp⟩
  · refine ⟨[Event.net (sendListResourcesCall a)], rfl, ?_⟩
    simp [eventCookieOnly, List.forall_mem_cons, sendListResourcesCall]
  · refine ⟨[Event.net (sendListResourcesCall a),
      Event.net (sendListFilesCall a)], rfl, ?_⟩
    simp [eventCookieOnly, List.forall_mem_cons, sendListResourcesCall,
      sendListFilesCall]
  · refine ⟨[Event.net (sendListResourcesCall a),
      Event.net (sendListFilesCall a), Event.net (sendDeleteFileCall a)],
      rfl, ?_⟩
    simp [eventCookieOnly, List.forall_mem_cons, sendListResourcesCall,
      sendListFilesCall, sendDeleteFileCall]
  · obtain ⟨rest2, hev, hrest⟩ := sendDeleteContainerPhase_shape a i srv
      [Event.net (sendListContainersCall a),
       Event.net (sendListResourcesCall a),
       Event.net (sendListFilesCall a),
       Event.net (sendDeleteFileCall a)] 4
    refine ⟨Event.net (sendListResourcesCall a)
        :: Event.net (sendListFilesCall a)
        :: Event.net (sendDeleteFileCall a) :: rest2, by rw [hev]; simp, ?_⟩
    intro e he
    rcases List.mem_cons.mp he with rfl | he
    · simp [eventCookieOnly, sendListResourcesCall]
    rcases List.mem_cons.mp he with rfl | he
    · simp [eventCookieOnly, sendListFilesCall]
    rcases List.mem_cons.mp he with rfl | he
    · simp [eventCookieOnly, sendDeleteFileCall]
    exact hrest e he
  · obtain ⟨rest2, hev, hrest⟩ := sendDeleteContainerPhase_shape a i srv
      [Event.net (sendListContainersCall a),
       Event.net (sendListResourcesCall a),
       Event.net (sendListFilesCall a)] 3
    refine ⟨Event.net (sendListResourcesCall a)
        :: Event.net (sendListFilesCall a) :: rest2, by rw [hev]; simp, ?_⟩
    intro e he
    rcases List.mem_cons.mp he with rfl | he
    · simp [eventCookieOnly, sendListResourcesCall]
    rcases List.mem_cons.mp he with rfl | he
    · simp [eventCookieOnly, sendListFilesCall]
    exact hrest e he
  · obtain ⟨rest2, hev, hrest⟩ := sendDeleteContainerPhase_shape a i srv
      [Event.net (sendListContainersCall a),
       Event.net (sendListResourcesCall a)] 2
    refine ⟨Event.net (sendListResourcesCall a) :: rest2, by rw [hev]; simp, ?_⟩
    intro e he
    rcases List.mem_cons.mp he with rfl | he
    · simp [eventCookieOnly, sendListResourcesCall]
    exact hrest e he
  · exact ⟨[], rfl, by simp⟩
  · obtain ⟨rest2, hev, hrest⟩ := sendCreatePhase_shape a i srv
      [Event.net (sendListContainersCall a)] 1
    exact ⟨rest2, by rw [hev]; simp, hrest⟩

theorem receive_events_shape (ra : ReceiveAccess) (i : Internal)
    (srv : Server) :
    ∃ rest, (Http.receive ra i srv).events
        = Event.net (receiveGetCall ra) :: rest
      ∧ ∀ e ∈ rest, eventCookieOnly e = true := by
  unfold Http.receive
  split_ifs <;>
    (refine ⟨_, rfl, ?_⟩
     simp [eventCookieOnly, List.forall_mem_cons, receiveDeleteSessionCall])

/-- C4 (amended): the first HTTP call of each operation carries the
basic-auth credential built from auth.username and auth.password; every
subsequent call of the operation carries no basic-auth header and instead
attaches the session cookies captured from the first response. -/
theorem c4_first_call_basic_auth_rest_cookies (a : SendAccess)
    (ra : ReceiveAccess) (i : Internal) (srv : Server) :
    (∀ u pw, a.auth = some { username := u, password := pw } →
      ∀ c cs, netCalls (Http.send a i srv).events = c :: cs →
        c.auth = some { username := u, password := pw } ∧ c.cookies = false
        ∧ ∀ c2 ∈ cs, c2.auth = none ∧ c2.cookies = true)
    ∧ (∀ u pw, ra.auth = some { username := u, password := pw } →
      ∀ c cs, netCalls (Http.receive ra i srv).events = c :: cs →
        c.auth = some { username := u, password := pw } ∧ c.cookies = false
        ∧ ∀ c2 ∈ cs, c2.auth = none ∧ c2.cookies = true) := by
  constructor
  · intro u pw hauth c cs hlist
    obtain ⟨rest, hev, hrest⟩ := send_events_shape a i srv
    rw [hev, netCalls_cons_net] at hlist
    obtain ⟨rfl, rfl⟩ := List.cons.inj hlist
    refine ⟨by simp [sendListContainersCall, auth_method_obj, hauth], rfl, ?_⟩
    intro c2 hc2
    have hm := net_mem_of_mem_netCalls rest c2 hc2
    have hco := hrest _ hm
    simpa [eventCookieOnly] using hco
  · intro u pw hauth c cs hlist
    obtain ⟨rest, hev, hrest⟩ := receive_events_shape ra i srv
    rw [hev, netCalls_cons_net] at hlist
    obtain ⟨rfl, rfl⟩ := List.cons.inj hlist
    refine ⟨by simp [receiveGetCall, auth_method_obj, hauth], rfl, ?_⟩
    intro c2 hc2
    have hm := net_mem_of_mem_netCalls rest c2 hc2
    have hco := hrest _ hm
    simpa [eventCookieOnly] using hco

/-- Witness for the amended C4 at concrete inputs. -/
theorem c4_first_call_basic_auth_rest_cookies_witness :
    (sendListContainersCall sendAccessA).auth =
      some { username := "u", password := "p" }
    ∧ (sendListContainersCall sendAccessA).cookies = false
    ∧ ∀ c2 ∈ [sendCreateContainerCall sendAccessA,
        sendCreateFileCall sendAccessA intLocal,
        sendDeleteSessionCall sendAccessA],
        c2.auth = none ∧ c2.cookies = true :=
  (c4_first_call_basic_auth_rest_cookies sendAccessA recvAccessLess intLocal
    srvEmpty).1 "u" "p" rfl (sendListContainersCall sendAccessA)
    [sendCreateContainerCall sendAccessA,
     sendCreateFileCall sendAccessA intLocal,
     sendDeleteSessionCall sendAccessA] (by decide)

/-- A concrete schema-valid send access description as a JSON value. -/
def jsonSendGood : JsonVal :=
  JsonVal.jobj
    [("baseUrl", JsonVal.jstr ("https://xnat.example.org")),
     ("project", JsonVal.jstr ("P1")),
     ("subject", JsonVal.jstr ("S1")),
     ("session", JsonVal.jstr ("E1")),
     ("containerType", JsonVal.jstr ("scans")),
     ("container", JsonVal.jstr ("SCAN1")),
     ("xsiType", JsonVal.jstr ("xnat:mrScanData")),
     ("file", JsonVal.jstr ("a.dcm")),
     ("auth", JsonVal.jobj
        [("username", JsonVal.jstr ("u")),
         ("password", JsonVal.jstr ("p"))])]

/-- Witness for C7: a concrete valid send description is accepted and a
concrete non-object is rejected. -/
theorem c7_validate_iff_spec_shapes_witness :
    Http.send_validate jsonSendGood = ValidateResult.ok
    ∧ Http.receive_validate (JsonVal.jstr ("x"))
        = ValidateResult.schemaViolation :=
  ⟨(c7_validate_iff_spec_shapes jsonSendGood).1.mpr (by decide),
   (c7_validate_iff_spec_shapes (JsonVal.jstr ("x"))).2.2.2.mpr (by decide)⟩

/-- Witness for C8 at concrete inputs. -/
theorem c8_first_failure_aborts_witness :
    haltsAtFirstFailure srvFull (Http.send sendAccessA intLocal srvFull) :=
  (c8_first_failure_aborts sendAccessA recvAccessLess intLocal intLocal
    srvFull srvFull).1

end RedXnat
